import Mathlib

/-!
Shallow embedding of `src/app.py`, a Flask service that trains a linear
regression on synthetic house data and serves price predictions.

Modelling conventions:
- Python floats are modelled by `PyFloat`: an exact rational, or one of the
  non-finite values nan, inf, -inf.  Comparisons follow IEEE semantics
  (every comparison with nan is false); finite arithmetic is exact rational
  arithmetic (rounding error is not modelled); signed zero is not modelled.
- Fallible Python code (exceptions) is modelled with `Except PyErr`.
- JSON request bodies are modelled by `JsonVal`.
- The numpy global random generator is modelled abstractly by `RngModel`:
  `seed` maps a seed value to a generator state, and each drawing routine is
  a deterministic function of the current state returning the drawn list and
  the successor state, with the documented length guarantees.
- The sklearn fitting routines (`train_test_split`, `StandardScaler.fit`,
  `LinearRegression.fit`) are modelled abstractly by `MLLib` as deterministic
  functions of their inputs.
-/

/-- A Python float value: exact rational, or nan / inf / -inf. -/
inductive PyFloat where
  | finite (q : ℚ)
  | nan
  | inf
  | neginf
deriving DecidableEq

/-- IEEE `<` on Python floats: any comparison involving nan is false. -/
def PyFloat.lt : PyFloat → PyFloat → Bool
  | .finite a, .finite b => decide (a < b)
  | .finite _, .inf => true
  | .neginf, .finite _ => true
  | .neginf, .inf => true
  | _, _ => false

/-- IEEE `>`: `a > b` iff `b < a`. -/
def PyFloat.gt (a b : PyFloat) : Bool := PyFloat.lt b a

/-- Python `max(a, b)`: keeps `a` unless `b > a`; `max(nan, x) = nan`. -/
def pymax (a b : PyFloat) : PyFloat := if PyFloat.lt a b then b else a

/-- Addition with IEEE special values (finite arithmetic exact). -/
def PyFloat.add : PyFloat → PyFloat → PyFloat
  | .nan, _ => .nan
  | _, .nan => .nan
  | .finite a, .finite b => .finite (a + b)
  | .inf, .neginf => .nan
  | .neginf, .inf => .nan
  | .inf, _ => .inf
  | _, .inf => .inf
  | .neginf, _ => .neginf
  | _, .neginf => .neginf

/-- Negation. -/
def PyFloat.neg : PyFloat → PyFloat
  | .finite a => .finite (-a)
  | .nan => .nan
  | .inf => .neginf
  | .neginf => .inf

/-- Subtraction. -/
def PyFloat.sub (a b : PyFloat) : PyFloat := PyFloat.add a (PyFloat.neg b)

/-- Multiplication with IEEE special values. -/
def PyFloat.mul : PyFloat → PyFloat → PyFloat
  | .nan, _ => .nan
  | _, .nan => .nan
  | .finite a, .finite b => .finite (a * b)
  | .inf, .inf => .inf
  | .inf, .neginf => .neginf
  | .neginf, .inf => .neginf
  | .neginf, .neginf => .inf
  | .inf, .finite b => if 0 < b then .inf else if b < 0 then .neginf else .nan
  | .finite a, .inf => if 0 < a then .inf else if a < 0 then .neginf else .nan
  | .neginf, .finite b => if 0 < b then .neginf else if b < 0 then .inf else .nan
  | .finite a, .neginf => if 0 < a then .neginf else if a < 0 then .inf else .nan

/-- Division with numpy/IEEE special-value semantics (signed zero ignored:
division of a nonzero finite value by zero takes the sign of the numerator). -/
def PyFloat.div : PyFloat → PyFloat → PyFloat
  | .nan, _ => .nan
  | _, .nan => .nan
  | .finite a, .finite b =>
      if b = 0 then (if 0 < a then .inf else if a < 0 then .neginf else .nan)
      else .finite (a / b)
  | .finite _, .inf => .finite 0
  | .finite _, .neginf => .finite 0
  | .inf, .finite b => if b < 0 then .neginf else .inf
  | .neginf, .finite b => if b < 0 then .inf else .neginf
  | _, .inf => .nan
  | _, .neginf => .nan

/-- Predicate: `x` is a finite float. -/
def PyFloat.isFinite (x : PyFloat) : Prop := ∃ q : ℚ, x = .finite q

/-- Python `round(x, 2)`: finite values rounded to two decimals (round-half-up
is used here in place of the float round-half-even; no claim depends on tie
behaviour), non-finite values returned unchanged. -/
def roundTo2 : PyFloat → PyFloat
  | .finite q => .finite ((round (q * 100) : ℤ) / 100)
  | x => x

/-- A Python exception relevant to the handler: `ValueError`, `TypeError`
or `KeyError`, with the exception text. -/
inductive PyErr where
  | valueError (msg : String)
  | typeError (msg : String)
  | keyError (key : String)
deriving DecidableEq

/-- Exception text `str(e)` (for `KeyError` Python prints the quoted key). -/
def PyErr.msg : PyErr → String
  | .valueError m => m
  | .typeError m => m
  | .keyError k => "\x27" ++ k ++ "\x27"

instance {ε α : Type} [DecidableEq ε] [DecidableEq α] : DecidableEq (Except ε α) := fun a b =>
  match a, b with
  | .ok x, .ok y =>
      match decEq x y with
      | isTrue h => isTrue (by rw [h])
      | isFalse h => isFalse (fun hh => h (Except.ok.inj hh))
  | .error x, .error y =>
      match decEq x y with
      | isTrue h => isTrue (by rw [h])
      | isFalse h => isFalse (fun hh => h (Except.error.inj hh))
  | .ok _, .error _ => isFalse (fun hh => Except.noConfusion hh)
  | .error _, .ok _ => isFalse (fun hh => Except.noConfusion hh)

/-- A JSON value, as produced by `request.get_json()`. -/
inductive JsonVal where
  | null
  | bool (b : Bool)
  | num (q : ℚ)
  | str (s : String)
  | arr (xs : List JsonVal)
  | obj (kvs : List (String × JsonVal))

/-- ASCII lower-casing of one character (what `float()` parsing needs). -/
def charLower (c : Char) : Char :=
  if 65 ≤ c.toNat ∧ c.toNat ≤ 90 then Char.ofNat (c.toNat + 32) else c

/-- Strip leading and trailing whitespace from a character list. -/
def charsTrim (cs : List Char) : List Char :=
  ((cs.dropWhile Char.isWhitespace).reverse.dropWhile Char.isWhitespace).reverse

/-- Split a character list at every occurrence of `sep`. -/
def splitOnChar (sep : Char) : List Char → List (List Char)
  | [] => [[]]
  | c :: cs =>
    let r := splitOnChar sep cs
    if c = sep then [] :: r
    else
      match r with
      | a :: rest => (c :: a) :: rest
      | [] => [[c]]

/-- Numeric value of a digit list (most significant first). -/
def digitsVal (cs : List Char) : ℕ :=
  cs.foldl (fun a c => 10 * a + (c.toNat - 48)) 0

/-- Parse the mantissa of a float literal: `d+`, `d+.d*`, `.d+` or `d+.d+`. -/
def parseMantissa (cs : List Char) : Option ℚ :=
  match splitOnChar '.' cs with
  | [ip] =>
      if !ip.isEmpty && ip.all Char.isDigit then some (digitsVal ip : ℚ) else none
  | [ip, fp] =>
      if (!ip.isEmpty || !fp.isEmpty) && ip.all Char.isDigit && fp.all Char.isDigit then
        some ((digitsVal ip : ℚ) + (digitsVal fp : ℚ) / 10 ^ fp.length)
      else none
  | _ => none

/-- Parse an exponent part: optional sign followed by at least one digit. -/
def parseExp (cs : List Char) : Option ℤ :=
  match cs with
  | '+' :: rest =>
      if !rest.isEmpty && rest.all Char.isDigit then some (digitsVal rest : ℤ) else none
  | '-' :: rest =>
      if !rest.isEmpty && rest.all Char.isDigit then some (-(digitsVal rest : ℤ)) else none
  | rest =>
      if !rest.isEmpty && rest.all Char.isDigit then some (digitsVal rest : ℤ) else none

/-- Parse an unsigned decimal float literal (mantissa with optional exponent). -/
def parseFloatCore (cs : List Char) : Option ℚ :=
  match splitOnChar 'e' cs with
  | [m] => parseMantissa m
  | [m, ex] =>
      match parseMantissa m, parseExp ex with
      | some mv, some ev => some (mv * (10 : ℚ) ^ ev)
      | _, _ => none
  | _ => none

/-- Python `float(s)` on a string: strip whitespace, case-insensitive
`nan` / `inf` / `infinity` with optional sign, else a decimal literal;
anything else raises `ValueError` (underscore digit separators are not
modelled). -/
def pyFloatOfString (s : String) : Except PyErr PyFloat :=
  let t := (charsTrim s.data).map charLower
  let signed : Bool × List Char :=
    match t with
    | '-' :: rest => (true, rest)
    | '+' :: rest => (false, rest)
    | rest => (false, rest)
  let neg := signed.1
  let u := signed.2
  if u = ['n', 'a', 'n'] then .ok .nan
  else if u = ['i', 'n', 'f'] || u = ['i', 'n', 'f', 'i', 'n', 'i', 't', 'y'] then
    .ok (if neg then .neginf else .inf)
  else
    match parseFloatCore u with
    | some q => .ok (.finite (if neg then -q else q))
    | none =>
        .error (.valueError ("could not convert string to float: \x27" ++ s ++ "\x27"))

/-- Python `float(v)` on a JSON value: numbers and booleans convert, strings
are parsed, `None` and containers raise `TypeError`. -/
def pyFloatOfJson : JsonVal → Except PyErr PyFloat
  | .num q => .ok (.finite q)
  | .bool b => .ok (.finite (if b then 1 else 0))
  | .str s => pyFloatOfString s
  | .null =>
      .error (.typeError "float() argument must be a string or a real number, not \x27NoneType\x27")
  | .arr _ =>
      .error (.typeError "float() argument must be a string or a real number, not \x27list\x27")
  | .obj _ =>
      .error (.typeError "float() argument must be a string or a real number, not \x27dict\x27")

/-- The five feature names, in declared order (`feature_names` in `app.py`). -/
def feature_names : List String := ["bedrooms", "bathrooms", "sqft_living", "floors", "age"]

/-- Substring test on character lists (Python `needle in haystack` for `str`). -/
def listSubstr (needle : List Char) : List Char → Bool
  | [] => needle.isEmpty
  | c :: t => List.isPrefixOf needle (c :: t) || listSubstr needle t

/-- Python `field in data` on a JSON value: key test on dicts, membership on
lists, substring test on strings; `TypeError` on scalars. -/
def jsonContains : JsonVal → String → Except PyErr Bool
  | .obj kvs, f => .ok (kvs.any (fun p => p.1 == f))
  | .arr xs, f =>
      .ok (xs.any (fun v => match v with | .str s => s == f | _ => false))
  | .str s, f => .ok (listSubstr (f.data) (s.data))
  | .null, _ => .error (.typeError "argument of type \x27NoneType\x27 is not iterable")
  | .num _, _ => .error (.typeError "argument of type \x27float\x27 is not iterable")
  | .bool _, _ => .error (.typeError "argument of type \x27bool\x27 is not iterable")

/-- Python `data[field]`: dict lookup (`KeyError` when absent), `TypeError`
on every other JSON value. -/
def jsonSubscript : JsonVal → String → Except PyErr JsonVal
  | .obj kvs, f =>
      match kvs.find? (fun p => p.1 == f) with
      | some p => .ok p.2
      | none => .error (.keyError f)
  | .arr _, _ => .error (.typeError "list indices must be integers or slices, not str")
  | .str _, _ => .error (.typeError "string indices must be integers, not \x27str\x27")
  | .null, _ => .error (.typeError "\x27NoneType\x27 object is not subscriptable")
  | .num _, _ => .error (.typeError "\x27float\x27 object is not subscriptable")
  | .bool _, _ => .error (.typeError "\x27bool\x27 object is not subscriptable")

/-- The required-fields loop of `predict_price`: returns the first field of
`feature_names` (in declared order) that is not in `data`, if any. -/
def firstMissingAux (data : JsonVal) : List String → Except PyErr (Option String)
  | [] => .ok none
  | f :: rest =>
      match jsonContains data f with
      | .error e => .error e
      | .ok true => firstMissingAux data rest
      | .ok false => .ok (some f)

/-- First required field missing from the request body, in declared order. -/
def firstMissing (data : JsonVal) : Except PyErr (Option String) :=
  firstMissingAux data feature_names

/-- The extracted feature vector (`features` list in `predict_price`). -/
structure Features where
  bedrooms : PyFloat
  bathrooms : PyFloat
  sqft_living : PyFloat
  floors : PyFloat
  age : PyFloat
deriving DecidableEq

/-- The feature vector as the list `[features[0], ..., features[4]]`. -/
def Features.toList (f : Features) : List PyFloat :=
  [f.bedrooms, f.bathrooms, f.sqft_living, f.floors, f.age]

/-- Python `float(data[field])` for one field. -/
def coerceField (data : JsonVal) (f : String) : Except PyErr PyFloat :=
  match jsonSubscript data f with
  | .error e => .error e
  | .ok v => pyFloatOfJson v

/-- Build the `features` list of `predict_price`: `float(data[...])` for the
five fields in declared order; the first conversion that raises wins. -/
def extractFeatures (data : JsonVal) : Except PyErr Features :=
  match coerceField data "bedrooms" with
  | .error e => .error e
  | .ok b =>
    match coerceField data "bathrooms" with
    | .error e => .error e
    | .ok ba =>
      match coerceField data "sqft_living" with
      | .error e => .error e
      | .ok sq =>
        match coerceField data "floors" with
        | .error e => .error e
        | .ok fl =>
          match coerceField data "age" with
          | .error e => .error e
          | .ok ag => .ok ⟨b, ba, sq, fl, ag⟩

/-- The range-validation chain of `predict_price`: first violated bound, in
declared order, with its error message; `none` when every check passes.
A nan value passes every check because both comparisons are false. -/
def rangeError (f : Features) : Option String :=
  if PyFloat.lt f.bedrooms (.finite 1) || PyFloat.gt f.bedrooms (.finite 10) then
    some "Bedrooms must be between 1 and 10"
  else if PyFloat.lt f.bathrooms (.finite (1/2)) || PyFloat.gt f.bathrooms (.finite 10) then
    some "Bathrooms must be between 0.5 and 10"
  else if PyFloat.lt f.sqft_living (.finite 100) || PyFloat.gt f.sqft_living (.finite 20000) then
    some "Square footage must be between 100 and 20,000"
  else if PyFloat.lt f.floors (.finite 1) || PyFloat.gt f.floors (.finite 5) then
    some "Floors must be between 1 and 5"
  else if PyFloat.lt f.age (.finite 0) || PyFloat.gt f.age (.finite 200) then
    some "Age must be between 0 and 200 years"
  else none

/-- The fitted `StandardScaler`: per-feature mean and scale (the scale is the
per-feature standard deviation; sklearn replaces a zero scale by 1, so the
stored scales of a fitted scaler are nonzero). -/
structure ScalerArt where
  mean : List ℚ
  scale : List ℚ
deriving DecidableEq

/-- The fitted `LinearRegression`: weight vector and intercept. -/
structure LinModel where
  coef : List ℚ
  intercept : ℚ
deriving DecidableEq

/-- The `scaler.transform` step: per-feature `(x - mean) / scale` in float arithmetic. -/
def ScalerArt.transformPf (sc : ScalerArt) : List PyFloat → List ℚ → List ℚ → List PyFloat
  | x :: xs, m :: ms, s :: ss =>
      PyFloat.div (PyFloat.sub x (.finite m)) (.finite s) :: sc.transformPf xs ms ss
  | _, _, _ => []

/-- Scale the whole feature vector. -/
def scaleFeatures (sc : ScalerArt) (xs : List PyFloat) : List PyFloat :=
  sc.transformPf xs sc.mean sc.scale

/-- The `model.predict` step on one scaled row: dot product with the weights plus the
intercept, in float arithmetic. -/
def LinModel.predictPf (lm : LinModel) (z : List PyFloat) : PyFloat :=
  PyFloat.add
    ((List.zipWith (fun w zi => PyFloat.mul (.finite w) zi) lm.coef z).foldl PyFloat.add (.finite 0))
    (.finite lm.intercept)

/-- Insert thousands separators walking a digit list least-significant first;
`k` counts digits emitted since the last separator. -/
def commaRev : List Char → ℕ → List Char
  | [], _ => []
  | c :: cs, 3 => ',' :: c :: commaRev cs 1
  | c :: cs, k => c :: commaRev cs (k + 1)

/-- Decimal rendering of a natural number with thousands separators. -/
def natToCommaString (n : ℕ) : String :=
  String.mk ((commaRev ((Nat.toDigits 10 n).reverse) 0).reverse)

/-- Two-digit zero-padded rendering of `n < 100`. -/
def twoDigitString (n : ℕ) : String :=
  if n < 10 then String.mk ('0' :: Nat.toDigits 10 n) else String.mk (Nat.toDigits 10 n)

/-- Python `format(q, ",.2f")` for a finite value (round-half behaviour as in
`roundTo2`). -/
def formatQ2 (q : ℚ) : String :=
  let n : ℤ := round (q * 100)
  let a := n.natAbs
  (if n < 0 then "-" else "") ++ natToCommaString (a / 100) ++ "." ++ twoDigitString (a % 100)

/-- Python `format(x, ",.2f")` on a float. -/
def formatPy : PyFloat → String
  | .finite q => formatQ2 q
  | .nan => "nan"
  | .inf => "inf"
  | .neginf => "-inf"

/-- An HTTP response of the service: the prediction payload, the model-info
payload, or an error `{"error": msg}` with its status code. -/
inductive Resp where
  | ok (predicted_price : PyFloat) (formatted_price : String) (input_features : Features)
  | info (model_type : String) (features : List String) (feature_descriptions : List (String × String))
  | err (status : ℕ) (msg : String)
deriving DecidableEq

/-- HTTP status of a response (`jsonify` without a code is 200). -/
def Resp.statusCode : Resp → ℕ
  | .ok _ _ _ => 200
  | .info _ _ _ => 200
  | .err s _ => s

/-- The `predicted_price` field of a success response. -/
def Resp.predictedPrice : Resp → Option PyFloat
  | .ok p _ _ => some p
  | _ => none

/-- The body of the `try:` block of `predict_price`: required-field loop,
feature extraction, range validation, then scale / predict / clamp;
a raised exception surfaces as `Except.error`. -/
def predictTry (lm : LinModel) (sc : ScalerArt) (data : JsonVal) : Except PyErr Resp :=
  match firstMissing data with
  | .error e => .error e
  | .ok (some f) => .ok (.err 400 ("Missing required field: " ++ f))
  | .ok none =>
    match extractFeatures data with
    | .error e => .error e
    | .ok fs =>
      match rangeError fs with
      | some m => .ok (.err 400 m)
      | none =>
        let z := scaleFeatures sc fs.toList
        let raw := lm.predictPf z
        let pred := pymax raw (.finite 50000)
        .ok (.ok (roundTo2 pred) ("$" ++ formatPy pred) fs)

/-- The `POST /api/predict` handler: the `try:` body with the two `except`
clauses of the source, `ValueError` to 400 and every other exception to 500. -/
def predict_price (lm : LinModel) (sc : ScalerArt) (data : JsonVal) : Resp :=
  match predictTry lm sc data with
  | .ok r => r
  | .error (.valueError m) => .err 400 ("Invalid input data: " ++ m)
  | .error e => .err 500 ("Prediction failed: " ++ PyErr.msg e)

/-- The `feature_descriptions` dict of `model_info`. -/
def feature_descriptions : List (String × String) :=
  [("bedrooms", "Number of bedrooms (1-10)"),
   ("bathrooms", "Number of bathrooms (0.5-10)"),
   ("sqft_living", "Living area in square feet (100-20,000)"),
   ("floors", "Number of floors (1-5)"),
   ("age", "Age of the house in years (0-200)")]

/-- The `GET /api/model-info` handler over the in-memory globals: 500 when
`model is None`, otherwise the fixed metadata payload. -/
def model_info (m : Option LinModel) (_scaler : Option ScalerArt) : Resp :=
  match m with
  | none => .err 500 "Model not loaded"
  | some _ => .info "Linear Regression" feature_names feature_descriptions

/-- The `GET /api/health` handler: a fixed 200 payload. -/
def health_check : ℕ × String × String :=
  (200, "healthy", "House Price Prediction API is running")

/-- Abstract deterministic model of the numpy global random generator.
`seed v` is the state installed by `np.random.seed(v)` (independent of the
previous state); each drawing routine is a pure function of the current state
returning the drawn list and the successor state.  The length fields record
the numpy guarantee that a size-`n` request returns `n` draws. -/
structure RngModel where
  seed : ℕ → ℕ
  randint : ℤ → ℤ → ℕ → ℕ → List ℤ × ℕ
  rand : ℕ → ℕ → List ℚ × ℕ
  choice : List ℚ → ℕ → ℕ → List ℚ × ℕ
  normal : ℚ → ℚ → ℕ → ℕ → List ℚ × ℕ
  randint_len : ∀ lo hi n s, (randint lo hi n s).1.length = n
  rand_len : ∀ n s, (rand n s).1.length = n
  choice_len : ∀ opts n s, (choice opts n s).1.length = n
  normal_len : ∀ m sd n s, (normal m sd n s).1.length = n

/-- Draw `np.random.randint(1, 6, 1000)` in `create_sample_data`, performed first after
`np.random.seed(42)`. -/
def drawBedrooms (R : RngModel) : List ℤ × ℕ := R.randint 1 6 1000 (R.seed 42)

/-- Draw `np.random.randint(1, 4, 1000)` (integer part of bathrooms). -/
def drawBathInt (R : RngModel) : List ℤ × ℕ := R.randint 1 4 1000 (drawBedrooms R).2

/-- Draw `np.random.rand(1000)` (fractional part of bathrooms). -/
def drawBathFrac (R : RngModel) : List ℚ × ℕ := R.rand 1000 (drawBathInt R).2

/-- Draw `np.random.randint(800, 5000, 1000)`. -/
def drawSqft (R : RngModel) : List ℤ × ℕ := R.randint 800 5000 1000 (drawBathFrac R).2

/-- Draw `np.random.choice([1, 1.5, 2, 2.5, 3], 1000)`. -/
def drawFloors (R : RngModel) : List ℚ × ℕ :=
  R.choice [1, 3/2, 2, 5/2, 3] 1000 (drawSqft R).2

/-- Draw `np.random.randint(0, 50, 1000)`. -/
def drawAge (R : RngModel) : List ℤ × ℕ := R.randint 0 50 1000 (drawFloors R).2

/-- Draw `np.random.normal(0, 20000, 1000)`, performed while evaluating `prices`. -/
def drawNoise (R : RngModel) : List ℚ × ℕ := R.normal 0 20000 1000 (drawAge R).2

/-- Zip over six lists (elementwise numpy arithmetic on six columns). -/
def zipWith6 (f : ℚ → ℚ → ℚ → ℚ → ℚ → ℚ → ℚ) :
    List ℚ → List ℚ → List ℚ → List ℚ → List ℚ → List ℚ → List ℚ
  | a :: as, b :: bs, c :: cs, d :: ds, e :: es, g :: gs =>
      f a b c d e g :: zipWith6 f as bs cs ds es gs
  | _, _, _, _, _, _ => []

/-- The `prices` formula of `create_sample_data` (before the floor). -/
def priceFormula (b ba sq fl ag nz : ℚ) : ℚ :=
  b * 15000 + ba * 20000 + sq * 150 + fl * 10000 - ag * 2000 + nz + 200000

/-- The `bedrooms` column, as rationals. -/
def colBedrooms (R : RngModel) : List ℚ := (drawBedrooms R).1.map (fun z : ℤ => (z : ℚ))

/-- The `bathrooms` column: integer draw plus fractional draw. -/
def colBathrooms (R : RngModel) : List ℚ :=
  List.zipWith (fun (a : ℤ) (b : ℚ) => (a : ℚ) + b) (drawBathInt R).1 (drawBathFrac R).1

/-- The `sqft_living` column, as rationals. -/
def colSqft (R : RngModel) : List ℚ := (drawSqft R).1.map (fun z : ℤ => (z : ℚ))

/-- The `floors` column. -/
def colFloors (R : RngModel) : List ℚ := (drawFloors R).1

/-- The `age` column, as rationals. -/
def colAge (R : RngModel) : List ℚ := (drawAge R).1.map (fun z : ℤ => (z : ℚ))

/-- The `prices` array before the floor. -/
def colPrices (R : RngModel) : List ℚ :=
  zipWith6 priceFormula (colBedrooms R) (colBathrooms R) (colSqft R) (colFloors R)
    (colAge R) (drawNoise R).1

/-- The synthesized dataframe: five feature columns and the price column. -/
structure DataFrame where
  bedrooms : List ℚ
  bathrooms : List ℚ
  sqft_living : List ℚ
  floors : List ℚ
  age : List ℚ
  price : List ℚ

/-- The synthesizer `create_sample_data`: reseed the global generator with 42, draw the five
feature columns, then `price = np.maximum(prices, 100000)`.  Takes and
returns the generator state; the incoming state is discarded by the reseed. -/
def create_sample_data (R : RngModel) (s0 : ℕ) : DataFrame × ℕ :=
  let _ := s0
  (⟨colBedrooms R, colBathrooms R, colSqft R, colFloors R, colAge R,
    (colPrices R).map (fun p => max p 100000)⟩,
   (drawNoise R).2)

/-- Zip building `df[feature_names]` as a list of rows in declared feature order. -/
def zipWith5 (f : ℚ → ℚ → ℚ → ℚ → ℚ → List ℚ) :
    List ℚ → List ℚ → List ℚ → List ℚ → List ℚ → List (List ℚ)
  | a :: as, b :: bs, c :: cs, d :: ds, e :: es =>
      f a b c d e :: zipWith5 f as bs cs ds es
  | _, _, _, _, _ => []

/-- The design matrix `X = df[feature_names]` as rows. -/
def featureRows (df : DataFrame) : List (List ℚ) :=
  zipWith5 (fun b ba sq fl ag => [b, ba, sq, fl, ag])
    df.bedrooms df.bathrooms df.sqft_living df.floors df.age

/-- Result of `train_test_split`. -/
structure SplitResult where
  XTrain : List (List ℚ)
  XTest : List (List ℚ)
  yTrain : List ℚ
  yTest : List ℚ

/-- Abstract deterministic model of the sklearn routines used by
`train_model`: the 80/20 split with a fixed `random_state`, the scaler fit
and the ordinary-least-squares fit are pure functions of their inputs. -/
structure MLLib where
  split : List (List ℚ) → List ℚ → ℚ → ℕ → SplitResult
  fitScaler : List (List ℚ) → ScalerArt
  fitLin : List (List ℚ) → List ℚ → LinModel

/-- The `scaler.transform` step on a training row, in exact arithmetic. -/
def scaleRow (sc : ScalerArt) (row : List ℚ) : List ℚ :=
  (List.zipWith (fun x m => x - m) row sc.mean).zipWith (fun y s => y / s) sc.scale

/-- The persisted artifact files (`house_price_model.pkl`, `scaler.pkl`):
`some` when the file exists, holding the serialized artifact. -/
structure FS where
  modelFile : Option LinModel
  scalerFile : Option ScalerArt

/-- The trainer `train_model`: synthesize the data, split 80/20 with `random_state=42`,
fit the scaler on the training features, fit the regression on the scaled
training features, then `joblib.dump` both artifacts (overwriting the files).
Returns the new globals, the new file state and the new generator state.
The held-out metrics are printed only and do not affect the result. -/
def train_model (R : RngModel) (L : MLLib) (s0 : ℕ) (fs : FS) : (LinModel × ScalerArt) × FS × ℕ :=
  let _ := fs
  let dfs := create_sample_data R s0
  let df := dfs.1
  let X := featureRows df
  let y := df.price
  let sp := L.split X y (1/5) 42
  let sc := L.fitScaler sp.XTrain
  let XTrainScaled := sp.XTrain.map (scaleRow sc)
  let m := L.fitLin XTrainScaled sp.yTrain
  ((m, sc), ⟨some m, some sc⟩, dfs.2)

/-- The loader `load_model`: when both artifact files exist, deserialize them into the
globals; otherwise invoke `train_model` (which also persists a fresh pair). -/
def load_model (R : RngModel) (L : MLLib) (s0 : ℕ) (fs : FS) :
    (Option LinModel × Option ScalerArt) × FS × ℕ :=
  match fs.modelFile, fs.scalerFile with
  | some m, some sc => ((some m, some sc), fs, s0)
  | _, _ =>
      let t := train_model R L s0 fs
      ((some t.1.1, some t.1.2), t.2.1, t.2.2)

/-- Server states reachable by the program: the initial `model = scaler =
None`, or the globals set by `load_model` at startup (which may itself call
`train_model`), or the globals set by a direct `train_model` call. -/
inductive Reachable : Option LinModel → Option ScalerArt → Prop where
  | init : Reachable none none
  | load : ∀ R L s0 fs, Reachable (load_model R L s0 fs).1.1 (load_model R L s0 fs).1.2
  | train : ∀ R L s0 fs,
      Reachable (some (train_model R L s0 fs).1.1) (some (train_model R L s0 fs).1.2)

/-- A concrete fitted regression used to instantiate theorems. -/
def lm0 : LinModel := ⟨[15000, 20000, 150, 10000, -2000], 400000⟩

/-- A concrete fitted scaler (nonzero scales) used to instantiate theorems. -/
def sc0 : ScalerArt := ⟨[3, 2, 2000, 2, 25], [1, 1, 1, 1, 1]⟩

/-- A request body with the five fields bound to the given JSON values. -/
def mkBody (v1 v2 v3 v4 v5 : JsonVal) : JsonVal :=
  .obj [("bedrooms", v1), ("bathrooms", v2), ("sqft_living", v3), ("floors", v4), ("age", v5)]

/-- A request body with the five fields bound to JSON numbers. -/
def mkNumBody (q1 q2 q3 q4 q5 : ℚ) : JsonVal :=
  mkBody (.num q1) (.num q2) (.num q3) (.num q4) (.num q5)

/-- A concrete instance of the abstract generator model. -/
def rng0 : RngModel where
  seed v := v
  randint lo _ n s := (List.replicate n lo, s + 1)
  rand n s := (List.replicate n 0, s + 1)
  choice opts n s := (List.replicate n (opts.headD 0), s + 1)
  normal _ _ n s := (List.replicate n 0, s + 1)
  randint_len := by intro lo hi n s; simp
  rand_len := by intro n s; simp
  choice_len := by intro opts n s; simp
  normal_len := by intro m sd n s; simp

/-- A concrete instance of the abstract sklearn model. -/
def ml0 : MLLib where
  split X y _ _ := ⟨X, [], y, []⟩
  fitScaler _ := sc0
  fitLin _ _ := lm0

/-- Key-membership test on the entry list of a JSON object. -/
def hasKey (kvs : List (String × JsonVal)) (f : String) : Bool :=
  kvs.any (fun p => p.1 == f)

/-- A body whose five field values are all the string `"nan"` / `"NaN"`. -/
def nanBody : JsonVal :=
  mkBody (.str "nan") (.str "NaN") (.str "nan") (.str "nan") (.str "nan")

/-- A body with every field present but `bedrooms` bound to JSON `null`. -/
def nullFieldBody : JsonVal :=
  mkBody .null (.num 2) (.num 1800) (.num 1) (.num 10)

/-- A body with every field present but `bedrooms` a non-numeric string. -/
def badStrBody : JsonVal :=
  mkBody (.str "abc") (.num 2) (.num 1800) (.num 1) (.num 10)

/-- The JSON value is a number or a string (the types whose `float()`
conversion can only fail with `ValueError`, never `TypeError`). -/
def numOrStr : JsonVal → Bool
  | .num _ => true
  | .str _ => true
  | _ => false

/-! ## Helper lemmas -/

theorem load_model_globals (R : RngModel) (L : MLLib) (s0 : ℕ) (fs : FS) :
    ∃ a b, (load_model R L s0 fs).1 = (some a, some b) := by
  rcases fs with ⟨mf, sf⟩
  cases mf <;> cases sf <;> simp [load_model]

/-! ## C7: training is deterministic -/

/-- C7: the synthesizer reseeds the global generator with the fixed seed 42
and the split uses a fixed `random_state`, so two runs of the training
procedure from arbitrary prior generator states and file states produce the
identical dataset and identical artifacts (and persist the identical pair). -/
theorem train_model_deterministic (R : RngModel) (L : MLLib) (s1 s2 : ℕ) (fs1 fs2 : FS) :
    create_sample_data R s1 = create_sample_data R s2 ∧
    train_model R L s1 fs1 = train_model R L s2 fs2 :=
  ⟨rfl, rfl⟩

/-! ## C5: load uses the persisted pair iff both files exist -/

/-- C5: `load_model` deserializes the persisted artifacts exactly when both
files exist; in every other case (including a partial pair) it invokes
training, which installs and persists a fresh pair. -/
theorem load_model_uses_files_iff_both_exist (R : RngModel) (L : MLLib) (s0 : ℕ) (fs : FS) :
    (∀ m sc, fs.modelFile = some m → fs.scalerFile = some sc →
        load_model R L s0 fs = ((some m, some sc), fs, s0)) ∧
    ((fs.modelFile = none ∨ fs.scalerFile = none) →
        load_model R L s0 fs =
          ((some (train_model R L s0 fs).1.1, some (train_model R L s0 fs).1.2),
           ⟨some (train_model R L s0 fs).1.1, some (train_model R L s0 fs).1.2⟩,
           (train_model R L s0 fs).2.2)) := by
  rcases fs with ⟨mf, sf⟩
  constructor
  · rintro m sc rfl rfl
    rfl
  · intro h
    cases mf <;> cases sf <;> simp at h <;> rfl

theorem load_model_uses_files_iff_both_exist_witness :
    load_model rng0 ml0 0 ⟨some lm0, some sc0⟩ = ((some lm0, some sc0), ⟨some lm0, some sc0⟩, 0) ∧
    load_model rng0 ml0 0 ⟨none, some sc0⟩ =
      ((some (train_model rng0 ml0 0 ⟨none, some sc0⟩).1.1,
        some (train_model rng0 ml0 0 ⟨none, some sc0⟩).1.2),
       ⟨some (train_model rng0 ml0 0 ⟨none, some sc0⟩).1.1,
        some (train_model rng0 ml0 0 ⟨none, some sc0⟩).1.2⟩,
       (train_model rng0 ml0 0 ⟨none, some sc0⟩).2.2) :=
  ⟨(load_model_uses_files_iff_both_exist rng0 ml0 0 ⟨some lm0, some sc0⟩).1 lm0 sc0 rfl rfl,
   (load_model_uses_files_iff_both_exist rng0 ml0 0 ⟨none, some sc0⟩).2 (Or.inl rfl)⟩

/-! ## C6: model-info fails iff nothing is loaded -/

/-- C6: over the reachable server states, `model_info` answers 500 exactly
when no artifacts are loaded, and in every loaded state answers the fixed
model type, feature list and descriptions. -/
theorem model_info_fails_iff_not_loaded (m : Option LinModel) (s : Option ScalerArt)
    (h : Reachable m s) :
    ((model_info m s).statusCode = 500 ↔ (m = none ∧ s = none)) ∧
    (∀ lm, m = some lm →
        model_info m s = .info "Linear Regression" feature_names feature_descriptions) := by
  constructor
  · cases h with
    | init => simp [model_info, Resp.statusCode]
    | load R L s0 fs =>
        obtain ⟨a, b, hab⟩ := load_model_globals R L s0 fs
        rw [show (load_model R L s0 fs).1.1 = some a by rw [hab],
          show (load_model R L s0 fs).1.2 = some b by rw [hab]]
        simp [model_info, Resp.statusCode]
    | train R L s0 fs => simp [model_info, Resp.statusCode]
  · rintro lm rfl
    rfl

theorem model_info_fails_iff_not_loaded_witness :
    (((model_info none none).statusCode = 500 ↔
        ((none : Option LinModel) = none ∧ (none : Option ScalerArt) = none)) ∧
      (∀ lm, (none : Option LinModel) = some lm →
        model_info none none = .info "Linear Regression" feature_names feature_descriptions)) ∧
    (model_info (some lm0) (some sc0)).statusCode = 200 :=
  ⟨model_info_fails_iff_not_loaded none none Reachable.init, rfl⟩

/-! ## C10: only ValueError is mapped to 400; other exceptions give 500 -/

/-- C10: an exception escaping the `try:` body is answered 400 with the
`Invalid input data:` prefix exactly when it is a `ValueError`; every other
exception is answered 500 with the `Prediction failed:` prefix — concretely,
a JSON `null` field value (a `TypeError` from `float(None)`) and a
non-object body (a `TypeError` from `field not in data`) both give 500. -/
theorem predict_exception_mapping :
    (∀ lm sc data e, predictTry lm sc data = Except.error e →
        predict_price lm sc data =
          match e with
          | .valueError m => .err 400 ("Invalid input data: " ++ m)
          | _ => .err 500 ("Prediction failed: " ++ PyErr.msg e)) ∧
    (∀ lm sc, predict_price lm sc nullFieldBody =
        .err 500 ("Prediction failed: " ++
          "float() argument must be a string or a real number, not \x27NoneType\x27")) ∧
    (∀ lm sc, predict_price lm sc (.num 5) =
        .err 500 ("Prediction failed: " ++ "argument of type \x27float\x27 is not iterable")) ∧
    (∀ lm sc, predict_price lm sc badStrBody =
        .err 400 ("Invalid input data: " ++ "could not convert string to float: \x27abc\x27")) := by
  refine ⟨?_, ?_, ?_, ?_⟩
  · intro lm sc data e he
    cases e <;> simp [predict_price, he, PyErr.msg]
  · intro lm sc
    rfl
  · intro lm sc
    rfl
  · intro lm sc
    rfl

theorem predict_exception_mapping_witness :
    predict_price lm0 sc0 (.num 5) =
      .err 500 ("Prediction failed: " ++ "argument of type \x27float\x27 is not iterable") :=
  predict_exception_mapping.1 lm0 sc0 (.num 5)
    (.typeError "argument of type \x27float\x27 is not iterable") rfl

/-! ## C9: the string "nan" passes every range check -/

/-- C9: the strings `"nan"` and `"NaN"` coerce to the float nan, for which
both bound comparisons of every range check are false, so a body whose
fields are such strings passes validation and the prediction pipeline runs
on non-finite features, answering 200 with a nan prediction. -/
theorem nan_string_bypasses_range_checks :
    pyFloatOfString "nan" = .ok .nan ∧
    pyFloatOfString "NaN" = .ok .nan ∧
    (PyFloat.lt .nan (.finite 1) = false ∧ PyFloat.gt .nan (.finite 10) = false) ∧
    (PyFloat.lt .nan (.finite (1/2)) = false ∧ PyFloat.gt .nan (.finite 10) = false) ∧
    (PyFloat.lt .nan (.finite 100) = false ∧ PyFloat.gt .nan (.finite 20000) = false) ∧
    (PyFloat.lt .nan (.finite 1) = false ∧ PyFloat.gt .nan (.finite 5) = false) ∧
    (PyFloat.lt .nan (.finite 0) = false ∧ PyFloat.gt .nan (.finite 200) = false) ∧
    rangeError ⟨.nan, .nan, .nan, .nan, .nan⟩ = none ∧
    predict_price lm0 sc0 nanBody = .ok .nan "$nan" ⟨.nan, .nan, .nan, .nan, .nan⟩ ∧
    (predict_price lm0 sc0 nanBody).statusCode = 200 := by
  refine ⟨rfl, rfl, ⟨rfl, rfl⟩, ⟨rfl, rfl⟩, ⟨rfl, rfl⟩, ⟨rfl, rfl⟩, ⟨rfl, rfl⟩, rfl, by decide, rfl⟩

/-! ## C2 (counterexample): a present-but-null field gives 500, not 400 -/

/-- C2 fails as stated: in `nullFieldBody` all five fields are present and
`bedrooms` is not coercible to a float, yet the response is 500 (the
`TypeError` from `float(None)` is not a `ValueError`), not 400. -/
theorem predict_null_field_gives_500 :
    firstMissing nullFieldBody = .ok none ∧
    pyFloatOfJson .null =
      .error (.typeError "float() argument must be a string or a real number, not \x27NoneType\x27") ∧
    (predict_price lm0 sc0 nullFieldBody).statusCode = 500 ∧
    (predict_price lm0 sc0 nullFieldBody).statusCode ≠ 400 := by
  refine ⟨rfl, rfl, rfl, by decide⟩

theorem range_check_true {q lo hi : ℚ} (h : q < lo ∨ hi < q) :
    (PyFloat.lt (.finite q) (.finite lo) || PyFloat.gt (.finite q) (.finite hi)) = true := by
  rcases h with h | h <;> simp [PyFloat.lt, PyFloat.gt, h]

theorem range_check_false {q lo hi : ℚ} (h1 : lo ≤ q) (h2 : q ≤ hi) :
    (PyFloat.lt (.finite q) (.finite lo) || PyFloat.gt (.finite q) (.finite hi)) = false := by
  simp [PyFloat.lt, PyFloat.gt, decide_eq_false_iff_not, not_lt]
  exact ⟨h1, h2⟩

theorem numOrStr_err {v : JsonVal} {e : PyErr} (hv : numOrStr v = true)
    (he : pyFloatOfJson v = .error e) : ∃ m, e = .valueError m := by
  cases v <;> simp [numOrStr] at hv <;> simp [pyFloatOfJson] at he
  case str s =>
    rw [pyFloatOfString] at he
    split at he
    · exact absurd he (by simp)
    · split at he
      · exact absurd he (by simp)
      · split at he
        · exact absurd he (by simp)
        · exact ⟨_, (Except.error.inj he).symm⟩

/-! ## C4: the first missing field (in declared order) is reported -/

/-- C4: a request body (a JSON object) missing a required field is answered
400 naming the first missing field in declared order. -/
theorem predict_missing_field_first_reported (lm : LinModel) (sc : ScalerArt)
    (kvs : List (String × JsonVal)) :
    (hasKey kvs "bedrooms" = false →
        predict_price lm sc (.obj kvs) = .err 400 ("Missing required field: " ++ "bedrooms")) ∧
    (hasKey kvs "bedrooms" = true → hasKey kvs "bathrooms" = false →
        predict_price lm sc (.obj kvs) = .err 400 ("Missing required field: " ++ "bathrooms")) ∧
    (hasKey kvs "bedrooms" = true → hasKey kvs "bathrooms" = true →
      hasKey kvs "sqft_living" = false →
        predict_price lm sc (.obj kvs) = .err 400 ("Missing required field: " ++ "sqft_living")) ∧
    (hasKey kvs "bedrooms" = true → hasKey kvs "bathrooms" = true →
      hasKey kvs "sqft_living" = true → hasKey kvs "floors" = false →
        predict_price lm sc (.obj kvs) = .err 400 ("Missing required field: " ++ "floors")) ∧
    (hasKey kvs "bedrooms" = true → hasKey kvs "bathrooms" = true →
      hasKey kvs "sqft_living" = true → hasKey kvs "floors" = true →
      hasKey kvs "age" = false →
        predict_price lm sc (.obj kvs) = .err 400 ("Missing required field: " ++ "age")) := by
  refine ⟨?_, ?_, ?_, ?_, ?_⟩
  · intro h1
    simp only [hasKey] at h1
    simp [predict_price, predictTry, firstMissing, firstMissingAux,
      feature_names, jsonContains, h1]
  · intro h1 h2
    simp only [hasKey] at h1 h2
    simp [predict_price, predictTry, firstMissing, firstMissingAux,
      feature_names, jsonContains, h1, h2]
  · intro h1 h2 h3
    simp only [hasKey] at h1 h2 h3
    simp [predict_price, predictTry, firstMissing, firstMissingAux,
      feature_names, jsonContains, h1, h2, h3]
  · intro h1 h2 h3 h4
    simp only [hasKey] at h1 h2 h3 h4
    simp [predict_price, predictTry, firstMissing, firstMissingAux,
      feature_names, jsonContains, h1, h2, h3, h4]
  · intro h1 h2 h3 h4 h5
    simp only [hasKey] at h1 h2 h3 h4 h5
    simp [predict_price, predictTry, firstMissing, firstMissingAux,
      feature_names, jsonContains, h1, h2, h3, h4, h5]

theorem predict_missing_field_first_reported_witness :
    predict_price lm0 sc0
        (.obj [("bedrooms", .num 3), ("bathrooms", .num 2), ("sqft_living", .num 1800)]) =
      .err 400 ("Missing required field: " ++ "floors") :=
  (predict_missing_field_first_reported lm0 sc0
    [("bedrooms", .num 3), ("bathrooms", .num 2), ("sqft_living", .num 1800)]).2.2.2.1
    (by decide) (by decide) (by decide) (by decide)

/-! ## C3: the first out-of-range feature (in declared order) is reported -/

/-- C3: a request with all five fields present and numeric but some value out
of bounds is answered by a single 400 naming the first failing feature in
declared order together with its valid range. -/
theorem predict_range_violation_first_reported (lm : LinModel) (sc : ScalerArt)
    (q1 q2 q3 q4 q5 : ℚ) :
    ((q1 < 1 ∨ 10 < q1) →
        predict_price lm sc (mkNumBody q1 q2 q3 q4 q5) =
          .err 400 "Bedrooms must be between 1 and 10") ∧
    (1 ≤ q1 → q1 ≤ 10 → (q2 < 1/2 ∨ 10 < q2) →
        predict_price lm sc (mkNumBody q1 q2 q3 q4 q5) =
          .err 400 "Bathrooms must be between 0.5 and 10") ∧
    (1 ≤ q1 → q1 ≤ 10 → 1/2 ≤ q2 → q2 ≤ 10 → (q3 < 100 ∨ 20000 < q3) →
        predict_price lm sc (mkNumBody q1 q2 q3 q4 q5) =
          .err 400 "Square footage must be between 100 and 20,000") ∧
    (1 ≤ q1 → q1 ≤ 10 → 1/2 ≤ q2 → q2 ≤ 10 → 100 ≤ q3 → q3 ≤ 20000 →
      (q4 < 1 ∨ 5 < q4) →
        predict_price lm sc (mkNumBody q1 q2 q3 q4 q5) =
          .err 400 "Floors must be between 1 and 5") ∧
    (1 ≤ q1 → q1 ≤ 10 → 1/2 ≤ q2 → q2 ≤ 10 → 100 ≤ q3 → q3 ≤ 20000 →
      1 ≤ q4 → q4 ≤ 5 → (q5 < 0 ∨ 200 < q5) →
        predict_price lm sc (mkNumBody q1 q2 q3 q4 q5) =
          .err 400 "Age must be between 0 and 200 years") := by
  have hm : firstMissing (mkNumBody q1 q2 q3 q4 q5) = .ok none := rfl
  have hx : extractFeatures (mkNumBody q1 q2 q3 q4 q5) =
      .ok ⟨.finite q1, .finite q2, .finite q3, .finite q4, .finite q5⟩ := rfl
  have key : ∀ m : String,
      rangeError ⟨.finite q1, .finite q2, .finite q3, .finite q4, .finite q5⟩ = some m →
      predict_price lm sc (mkNumBody q1 q2 q3 q4 q5) = .err 400 m := by
    intro m hr
    simp [predict_price, predictTry, hm, hx, hr]
  refine ⟨?_, ?_, ?_, ?_, ?_⟩
  · intro h
    refine key _ ?_
    unfold rangeError
    rw [range_check_true h]
    simp
  · intro h1a h1b h
    refine key _ ?_
    unfold rangeError
    rw [range_check_false h1a h1b, range_check_true h]
    simp
  · intro h1a h1b h2a h2b h
    refine key _ ?_
    unfold rangeError
    rw [range_check_false h1a h1b, range_check_false h2a h2b, range_check_true h]
    simp
  · intro h1a h1b h2a h2b h3a h3b h
    refine key _ ?_
    unfold rangeError
    rw [range_check_false h1a h1b, range_check_false h2a h2b, range_check_false h3a h3b,
      range_check_true h]
    simp
  · intro h1a h1b h2a h2b h3a h3b h4a h4b h
    refine key _ ?_
    unfold rangeError
    rw [range_check_false h1a h1b, range_check_false h2a h2b, range_check_false h3a h3b,
      range_check_false h4a h4b, range_check_true h]
    simp

theorem predict_range_violation_first_reported_witness :
    predict_price lm0 sc0 (mkNumBody 0 2 1800 1 10) =
      .err 400 "Bedrooms must be between 1 and 10" :=
  (predict_range_violation_first_reported lm0 sc0 0 2 1800 1 10).1 (Or.inl (by norm_num))

/-! ## C2 (amended): a non-numeric string field gives 400 -/

/-- C2 as amended: when all five fields are present with number-or-string
values and the conversion of some field raises (necessarily a `ValueError`,
since only a non-numeric string can fail among these types), the response is
400 with the error body.  (A non-coercible value of another JSON type, such
as `null`, raises `TypeError` instead and is answered 500.) -/
theorem predict_nonnumeric_string_gives_400 (lm : LinModel) (sc : ScalerArt)
    (v1 v2 v3 v4 v5 : JsonVal)
    (h1 : numOrStr v1 = true) (h2 : numOrStr v2 = true) (h3 : numOrStr v3 = true)
    (h4 : numOrStr v4 = true) (h5 : numOrStr v5 = true)
    (e : PyErr) (he : extractFeatures (mkBody v1 v2 v3 v4 v5) = .error e) :
    ∃ m, e = .valueError m ∧
      predict_price lm sc (mkBody v1 v2 v3 v4 v5) =
        .err 400 ("Invalid input data: " ++ m) := by
  have hm : firstMissing (mkBody v1 v2 v3 v4 v5) = .ok none := rfl
  have hc1 : coerceField (mkBody v1 v2 v3 v4 v5) "bedrooms" = pyFloatOfJson v1 := rfl
  have hc2 : coerceField (mkBody v1 v2 v3 v4 v5) "bathrooms" = pyFloatOfJson v2 := rfl
  have hc3 : coerceField (mkBody v1 v2 v3 v4 v5) "sqft_living" = pyFloatOfJson v3 := rfl
  have hc4 : coerceField (mkBody v1 v2 v3 v4 v5) "floors" = pyFloatOfJson v4 := rfl
  have hc5 : coerceField (mkBody v1 v2 v3 v4 v5) "age" = pyFloatOfJson v5 := rfl
  have key : ∃ v, numOrStr v = true ∧ pyFloatOfJson v = .error e := by
    rw [extractFeatures, hc1, hc2, hc3, hc4, hc5] at he
    cases hv1 : pyFloatOfJson v1 with
    | error e1 => rw [hv1] at he; exact ⟨v1, h1, by rw [hv1, Except.error.inj he]⟩
    | ok b1 =>
      rw [hv1] at he
      cases hv2 : pyFloatOfJson v2 with
      | error e2 => rw [hv2] at he; exact ⟨v2, h2, by rw [hv2, Except.error.inj he]⟩
      | ok b2 =>
        rw [hv2] at he
        cases hv3 : pyFloatOfJson v3 with
        | error e3 => rw [hv3] at he; exact ⟨v3, h3, by rw [hv3, Except.error.inj he]⟩
        | ok b3 =>
          rw [hv3] at he
          cases hv4 : pyFloatOfJson v4 with
          | error e4 => rw [hv4] at he; exact ⟨v4, h4, by rw [hv4, Except.error.inj he]⟩
          | ok b4 =>
            rw [hv4] at he
            cases hv5 : pyFloatOfJson v5 with
            | error e5 => rw [hv5] at he; exact ⟨v5, h5, by rw [hv5, Except.error.inj he]⟩
            | ok b5 => rw [hv5] at he; exact absurd he (by simp)
  obtain ⟨v, hv, hverr⟩ := key
  obtain ⟨m, rfl⟩ := numOrStr_err hv hverr
  exact ⟨m, rfl, by simp [predict_price, predictTry, hm, he]⟩

theorem predict_nonnumeric_string_gives_400_witness :
    ∃ m, (PyErr.valueError ("could not convert string to float: \x27abc\x27")) = .valueError m ∧
      predict_price lm0 sc0 (mkBody (.str "abc") (.num 2) (.num 1800) (.num 1) (.num 10)) =
        .err 400 ("Invalid input data: " ++ m) :=
  predict_nonnumeric_string_gives_400 lm0 sc0 (.str "abc") (.num 2) (.num 1800) (.num 1) (.num 10)
    rfl rfl rfl rfl rfl _ rfl

/-! ## C1: in-range requests are answered at least 50000 -/

theorem add_isFinite {a b : PyFloat} (ha : a.isFinite) (hb : b.isFinite) :
    (PyFloat.add a b).isFinite := by
  obtain ⟨x, rfl⟩ := ha
  obtain ⟨y, rfl⟩ := hb
  exact ⟨x + y, rfl⟩

theorem sub_isFinite {a b : PyFloat} (ha : a.isFinite) (hb : b.isFinite) :
    (PyFloat.sub a b).isFinite := by
  obtain ⟨x, rfl⟩ := ha
  obtain ⟨y, rfl⟩ := hb
  exact ⟨x - y, by simp [PyFloat.sub, PyFloat.neg, PyFloat.add, sub_eq_add_neg]⟩

theorem mul_isFinite {a b : PyFloat} (ha : a.isFinite) (hb : b.isFinite) :
    (PyFloat.mul a b).isFinite := by
  obtain ⟨x, rfl⟩ := ha
  obtain ⟨y, rfl⟩ := hb
  exact ⟨x * y, rfl⟩

theorem div_isFinite {a : PyFloat} {s : ℚ} (ha : a.isFinite) (hs : s ≠ 0) :
    (PyFloat.div a (.finite s)).isFinite := by
  obtain ⟨x, rfl⟩ := ha
  exact ⟨x / s, by simp [PyFloat.div, hs]⟩

theorem transformPf_isFinite (sc : ScalerArt) (xs : List PyFloat) :
    ∀ (ms ss : List ℚ), (∀ x ∈ xs, x.isFinite) → (∀ s ∈ ss, s ≠ 0) →
    ∀ y ∈ sc.transformPf xs ms ss, y.isFinite := by
  induction xs with
  | nil =>
      intro ms ss _ _ y hy
      cases ms <;> cases ss <;> simp [ScalerArt.transformPf] at hy
  | cons x xs ih =>
      intro ms ss hx hs y hy
      cases ms with
      | nil => simp [ScalerArt.transformPf] at hy
      | cons m ms =>
        cases ss with
        | nil => simp [ScalerArt.transformPf] at hy
        | cons s ss =>
          simp only [ScalerArt.transformPf, List.mem_cons] at hy
          rcases hy with rfl | hy
          · exact div_isFinite (sub_isFinite (hx x (by simp)) ⟨m, rfl⟩) (hs s (by simp))
          · exact ih ms ss (fun z hz => hx z (by simp [hz])) (fun t ht => hs t (by simp [ht])) y hy

theorem foldl_add_isFinite (l : List PyFloat) :
    ∀ acc : PyFloat, (∀ x ∈ l, x.isFinite) → acc.isFinite →
    (l.foldl PyFloat.add acc).isFinite := by
  induction l with
  | nil => intro acc _ hacc; simpa using hacc
  | cons x xs ih =>
      intro acc hl hacc
      simp only [List.foldl_cons]
      exact ih _ (fun z hz => hl z (by simp [hz])) (add_isFinite hacc (hl x (by simp)))

theorem zipWith_mul_isFinite (ws : List ℚ) :
    ∀ zs : List PyFloat, (∀ z ∈ zs, z.isFinite) →
    ∀ y ∈ List.zipWith (fun w zi => PyFloat.mul (.finite w) zi) ws zs, y.isFinite := by
  induction ws with
  | nil => intro zs _ y hy; simp at hy
  | cons w ws ih =>
      intro zs hz y hy
      cases zs with
      | nil => simp at hy
      | cons z zs =>
        simp only [List.zipWith_cons_cons, List.mem_cons] at hy
        rcases hy with rfl | hy
        · exact mul_isFinite ⟨w, rfl⟩ (hz z (by simp))
        · exact ih zs (fun t ht => hz t (by simp [ht])) y hy

theorem predictPf_isFinite (lm : LinModel) (zs : List PyFloat)
    (hz : ∀ z ∈ zs, z.isFinite) : (lm.predictPf zs).isFinite :=
  add_isFinite
    (foldl_add_isFinite _ _ (zipWith_mul_isFinite lm.coef zs hz) ⟨0, rfl⟩)
    ⟨lm.intercept, rfl⟩

theorem pymax_finite_floor (r : ℚ) :
    ∃ p : ℚ, pymax (.finite r) (.finite 50000) = .finite p ∧ 50000 ≤ p := by
  by_cases h : r < 50000
  · exact ⟨50000, by simp [pymax, PyFloat.lt, h], le_refl _⟩
  · exact ⟨r, by simp [pymax, PyFloat.lt, h], not_lt.1 h⟩

theorem round2_ge_50000 {p : ℚ} (h : 50000 ≤ p) :
    (50000 : ℚ) ≤ ((round (p * 100) : ℤ) : ℚ) / 100 := by
  have h1 : (5000000 : ℤ) ≤ round (p * 100) := by
    have h2 : round ((5000000 : ℤ) : ℚ) ≤ round (p * 100) := by
      rw [round_eq, round_eq]
      exact Int.floor_mono (by push_cast; linarith)
    simpa using h2
  rw [le_div_iff₀ (by norm_num : (0:ℚ) < 100)]
  norm_num
  exact_mod_cast h1

/-- C1: a request whose five values are numbers within the declared ranges
(given the sklearn guarantee that the stored scales are nonzero) is answered
200 with a finite `predicted_price` of at least 50000, because the raw
regression output is clamped to a floor of 50000 before rounding. -/
theorem predict_inrange_price_floor (lm : LinModel) (sc : ScalerArt) (q1 q2 q3 q4 q5 : ℚ)
    (hsc : ∀ s ∈ sc.scale, s ≠ 0)
    (h1a : 1 ≤ q1) (h1b : q1 ≤ 10) (h2a : 1/2 ≤ q2) (h2b : q2 ≤ 10)
    (h3a : 100 ≤ q3) (h3b : q3 ≤ 20000) (h4a : 1 ≤ q4) (h4b : q4 ≤ 5)
    (h5a : 0 ≤ q5) (h5b : q5 ≤ 200) :
    ∃ p : ℚ, (predict_price lm sc (mkNumBody q1 q2 q3 q4 q5)).statusCode = 200 ∧
      (predict_price lm sc (mkNumBody q1 q2 q3 q4 q5)).predictedPrice = some (.finite p) ∧
      50000 ≤ p := by
  have hm : firstMissing (mkNumBody q1 q2 q3 q4 q5) = .ok none := rfl
  have hx : extractFeatures (mkNumBody q1 q2 q3 q4 q5) =
      .ok ⟨.finite q1, .finite q2, .finite q3, .finite q4, .finite q5⟩ := rfl
  have hr : rangeError ⟨.finite q1, .finite q2, .finite q3, .finite q4, .finite q5⟩ = none := by
    unfold rangeError
    rw [range_check_false h1a h1b, range_check_false h2a h2b, range_check_false h3a h3b,
      range_check_false h4a h4b, range_check_false h5a h5b]
    simp
  have hfeat : ∀ x ∈ (Features.mk (.finite q1) (.finite q2) (.finite q3) (.finite q4)
      (.finite q5)).toList, PyFloat.isFinite x := by
    intro x hx'
    simp [Features.toList] at hx'
    rcases hx' with rfl | rfl | rfl | rfl | rfl
    · exact ⟨q1, rfl⟩
    · exact ⟨q2, rfl⟩
    · exact ⟨q3, rfl⟩
    · exact ⟨q4, rfl⟩
    · exact ⟨q5, rfl⟩
  have hzfin : ∀ y ∈ scaleFeatures sc (Features.mk (.finite q1) (.finite q2) (.finite q3)
      (.finite q4) (.finite q5)).toList, PyFloat.isFinite y :=
    transformPf_isFinite sc _ sc.mean sc.scale hfeat hsc
  obtain ⟨r, hraw⟩ := predictPf_isFinite lm _ hzfin
  obtain ⟨p0, hmax, hge⟩ := pymax_finite_floor r
  refine ⟨((round (p0 * 100) : ℤ) : ℚ) / 100, ?_, ?_, round2_ge_50000 hge⟩
  · simp [predict_price, predictTry, hm, hx, hr, Resp.statusCode]
  · simp [predict_price, predictTry, hm, hx, hr, hraw, hmax, Resp.predictedPrice, roundTo2]

theorem predict_inrange_price_floor_witness :
    ∃ p : ℚ, (predict_price lm0 sc0 (mkNumBody 3 2 1800 1 10)).statusCode = 200 ∧
      (predict_price lm0 sc0 (mkNumBody 3 2 1800 1 10)).predictedPrice = some (.finite p) ∧
      50000 ≤ p :=
  predict_inrange_price_floor lm0 sc0 3 2 1800 1 10 (by decide)
    (by norm_num) (by norm_num) (by norm_num) (by norm_num) (by norm_num)
    (by norm_num) (by norm_num) (by norm_num) (by norm_num) (by norm_num)

/-! ## C8: every synthesized price is the floored formula value -/

theorem zipWith6_getElem (f : ℚ → ℚ → ℚ → ℚ → ℚ → ℚ → ℚ)
    (as : List ℚ) :
    ∀ (bs cs ds es gs : List ℚ) (i : ℕ) (a b c d e g : ℚ),
    as[i]? = some a → bs[i]? = some b → cs[i]? = some c →
    ds[i]? = some d → es[i]? = some e → gs[i]? = some g →
    (zipWith6 f as bs cs ds es gs)[i]? = some (f a b c d e g) := by
  induction as with
  | nil => intro bs cs ds es gs i a b c d e g ha; simp at ha
  | cons a0 as ih =>
      intro bs cs ds es gs i a b c d e g ha hb hc hd hee hg
      cases bs with
      | nil => simp at hb
      | cons b0 bs =>
        cases cs with
        | nil => simp at hc
        | cons c0 cs =>
          cases ds with
          | nil => simp at hd
          | cons d0 ds =>
            cases es with
            | nil => simp at hee
            | cons e0 es =>
              cases gs with
              | nil => simp at hg
              | cons g0 gs =>
                cases i with
                | zero =>
                    simp only [List.getElem?_cons_zero, Option.some.injEq] at ha hb hc hd hee hg
                    subst ha hb hc hd hee hg
                    simp [zipWith6]
                | succ j =>
                    simp only [List.getElem?_cons_succ] at ha hb hc hd hee hg
                    simpa [zipWith6] using ih bs cs ds es gs j a b c d e g ha hb hc hd hee hg

theorem colBedrooms_length (R : RngModel) : (colBedrooms R).length = 1000 := by
  unfold colBedrooms drawBedrooms
  rw [List.length_map]
  exact R.randint_len 1 6 1000 (R.seed 42)

theorem colBathrooms_length (R : RngModel) : (colBathrooms R).length = 1000 := by
  unfold colBathrooms drawBathFrac drawBathInt
  rw [List.length_zipWith, R.randint_len, R.rand_len]
  simp

theorem colSqft_length (R : RngModel) : (colSqft R).length = 1000 := by
  unfold colSqft drawSqft
  rw [List.length_map]
  exact R.randint_len 800 5000 1000 (drawBathFrac R).2

theorem colFloors_length (R : RngModel) : (colFloors R).length = 1000 := by
  unfold colFloors drawFloors
  exact R.choice_len [1, 3/2, 2, 5/2, 3] 1000 (drawSqft R).2

theorem colAge_length (R : RngModel) : (colAge R).length = 1000 := by
  unfold colAge drawAge
  rw [List.length_map]
  exact R.randint_len 0 50 1000 (drawFloors R).2

theorem drawNoise_length (R : RngModel) : (drawNoise R).1.length = 1000 := by
  unfold drawNoise
  exact R.normal_len 0 20000 1000 (drawAge R).2

/-- C8: for every index of the synthesized dataset, the price equals
`15000·bedrooms + 20000·bathrooms + 150·sqft_living + 10000·floors −
2000·age + noise + 200000` floored at 100000, hence is at least 100000. -/
theorem sample_price_formula_floor (R : RngModel) (s0 i : ℕ) (hi : i < 1000) :
    ∃ b ba sq fl ag nz : ℚ,
      ((create_sample_data R s0).1.bedrooms)[i]? = some b ∧
      ((create_sample_data R s0).1.bathrooms)[i]? = some ba ∧
      ((create_sample_data R s0).1.sqft_living)[i]? = some sq ∧
      ((create_sample_data R s0).1.floors)[i]? = some fl ∧
      ((create_sample_data R s0).1.age)[i]? = some ag ∧
      ((drawNoise R).1)[i]? = some nz ∧
      ((create_sample_data R s0).1.price)[i]? =
        some (max (priceFormula b ba sq fl ag nz) 100000) ∧
      100000 ≤ max (priceFormula b ba sq fl ag nz) 100000 := by
  have l1 : i < (colBedrooms R).length := by rw [colBedrooms_length]; exact hi
  have l2 : i < (colBathrooms R).length := by rw [colBathrooms_length]; exact hi
  have l3 : i < (colSqft R).length := by rw [colSqft_length]; exact hi
  have l4 : i < (colFloors R).length := by rw [colFloors_length]; exact hi
  have l5 : i < (colAge R).length := by rw [colAge_length]; exact hi
  have l6 : i < (drawNoise R).1.length := by rw [drawNoise_length]; exact hi
  have hb := List.getElem?_eq_getElem l1
  have hba := List.getElem?_eq_getElem l2
  have hsq := List.getElem?_eq_getElem l3
  have hfl := List.getElem?_eq_getElem l4
  have hag := List.getElem?_eq_getElem l5
  have hnz := List.getElem?_eq_getElem l6
  refine ⟨(colBedrooms R)[i], (colBathrooms R)[i], (colSqft R)[i], (colFloors R)[i],
    (colAge R)[i], (drawNoise R).1[i], hb, hba, hsq, hfl, hag, hnz, ?_, le_max_right _ _⟩
  have hp : (colPrices R)[i]? = some (priceFormula (colBedrooms R)[i] (colBathrooms R)[i]
      (colSqft R)[i] (colFloors R)[i] (colAge R)[i] (drawNoise R).1[i]) :=
    zipWith6_getElem priceFormula _ _ _ _ _ _ i _ _ _ _ _ _ hb hba hsq hfl hag hnz
  show ((colPrices R).map (fun p => max p 100000))[i]? = _
  rw [List.getElem?_map, hp]
  rfl

theorem sample_price_formula_floor_witness :
    ∃ b ba sq fl ag nz : ℚ,
      ((create_sample_data rng0 0).1.bedrooms)[0]? = some b ∧
      ((create_sample_data rng0 0).1.bathrooms)[0]? = some ba ∧
      ((create_sample_data rng0 0).1.sqft_living)[0]? = some sq ∧
      ((create_sample_data rng0 0).1.floors)[0]? = some fl ∧
      ((create_sample_data rng0 0).1.age)[0]? = some ag ∧
      ((drawNoise rng0).1)[0]? = some nz ∧
      ((create_sample_data rng0 0).1.price)[0]? =
        some (max (priceFormula b ba sq fl ag nz) 100000) ∧
      100000 ≤ max (priceFormula b ba sq fl ag nz) 100000 :=
  sample_price_formula_floor rng0 0 0 (by decide)
